import Mathlib

/-!
Shallow embedding of the transition engine of `django-state-machine-demo`:
the `ChoicesEnum` state type with hook registry (`utils/enums.py`), the
`Order` entity with its adjacency table and `transition_state` method
(`orders/models.py`), and the concrete hooks (`orders/hooks.py`).

Modelling conventions:
- the six members of `Order.State` become the inductive type `State`;
- Python dicts keyed by strings become association lists (`List (String × JVal)`),
  with dict lookup as `List.lookup` and dict item assignment as `setKey`;
- the in-memory entity and its persisted (database) copy are kept separately in
  `MachineState`, so that "save" is visible as copying the in-memory entity
  into the persisted slot;
- a Python exception becomes an `Except` error value that aborts the
  remaining steps of the transition;
- numeric values carry exact rationals together with their Python runtime
  type (`decimal.Decimal`, `float` or `int`) in the `PyNum` type, because the
  operator dispatch between those types matters for `apply_discount`: binary
  floating-point rounding is the only numeric aspect abstracted away.
-/

/-- The members of `Order.State` (models.py lines 10-16), in declaration order. -/
inductive State where
  | PENDING_PAYMENT
  | PROCESSING
  | OUT_FOR_DELIVERY
  | DELIVERED
  | CANCELLED
  | REFUNDED
  deriving DecidableEq, Repr, Fintype

/-- The raw right-hand side of an enum member declaration: either a bare value
string, or a `(value, label)` pair (the tuple syntax enabled by
`ChoicesEnumMeta._get_mixins_`). -/
inductive RawDef where
  | bare (v : String)
  | pair (v l : String)
  deriving DecidableEq, Repr

/-- The declaration of each `Order.State` member as written in models.py:
every member is declared with a bare value except `DELIVERED`, declared as
`"delivered", "Package Delivered"`. -/
def rawOf : State → RawDef
  | .PENDING_PAYMENT => .bare "pending_payment"
  | .PROCESSING => .bare "processing"
  | .OUT_FOR_DELIVERY => .bare "out_for_delivery"
  | .DELIVERED => .pair "delivered" "Package Delivered"
  | .CANCELLED => .bare "cancelled"
  | .REFUNDED => .bare "refunded"

/-- The Python `_name_` of each member. -/
def pyName : State → String
  | .PENDING_PAYMENT => "PENDING_PAYMENT"
  | .PROCESSING => "PROCESSING"
  | .OUT_FOR_DELIVERY => "OUT_FOR_DELIVERY"
  | .DELIVERED => "DELIVERED"
  | .CANCELLED => "CANCELLED"
  | .REFUNDED => "REFUNDED"

/-- The members in declaration order, as Python iterates an `Enum`. -/
def allStates : List State :=
  [.PENDING_PAYMENT, .PROCESSING, .OUT_FOR_DELIVERY, .DELIVERED, .CANCELLED, .REFUNDED]

/-- Model of `str.replace("_", " ")` for the single-character pattern used in
`ChoicesEnum.__init__`. -/
def pyUnderscoreToSpace (s : String) : String :=
  ⟨s.data.map (fun c => if c = '_' then ' ' else c)⟩

/-- Model of Python `str.title()` on ASCII text: an alphabetic character is
uppercased when the previous character is not alphabetic and lowercased
otherwise. -/
def pyTitleAux : List Char → Bool → List Char
  | [], _ => []
  | c :: cs, prevAlpha =>
    if c.isAlpha then
      (if prevAlpha then c.toLower else c.toUpper) :: pyTitleAux cs true
    else
      c :: pyTitleAux cs false

/-- Model of Python `str.title()`. -/
def pyTitle (s : String) : String := ⟨pyTitleAux s.data false⟩

/-- The machine value of a member: `value[0]` for tuple declarations, the bare
string otherwise (`ChoicesEnum.__new__`). -/
def State.value (s : State) : String :=
  match rawOf s with
  | .bare v => v
  | .pair v _ => v

/-- The label of a member (`ChoicesEnum.__init__`): the second tuple element
when supplied, otherwise `_name_.replace("_", " ").title()`. -/
def State.desc (s : State) : String :=
  match rawOf s with
  | .bare _ => pyTitle (pyUnderscoreToSpace (pyName s))
  | .pair _ l => l

/-- Model of `ChoicesEnum.choices()`: the `(value, desc)` pairs of all members
in declaration order. -/
def choices : List (String × String) :=
  allStates.map (fun s => (s.value, s.desc))

/-- Model of the `Order.State(raw)` enum constructor: look the raw string up
among the member values (Python `EnumMeta.__call__` value lookup). -/
def State.ofValue? (v : String) : Option State :=
  allStates.find? (fun s => s.value == v)

/-- A Python value handed to `ChoicesEnum.is_valid`: an enum member instance,
a raw string, or anything else (neither an instance of the class nor a `str`). -/
inductive PyVal where
  | member (s : State)
  | rawStr (v : String)
  | other
  deriving DecidableEq

/-- Model of `ChoicesEnum.is_valid`: true for member instances, membership of
the value among the member values for strings, false otherwise. -/
def is_valid : PyVal → Bool
  | .member _ => true
  | .rawStr v => allStates.any (fun s => s.value == v)
  | .other => false

/-- A JSON scalar value as produced by `json.loads` on the admin's extra-data
payload; the demo's transition parameters are strings and integers. -/
inductive JVal where
  | str (s : String)
  | num (n : Int)
  deriving DecidableEq, Repr

/-- Keyword arguments of a transition (`**kwargs`), as an association list. -/
def Params := List (String × JVal)
  deriving DecidableEq

/-- Python `str()` of an optional value, as used by f-strings: `None` for a
missing argument, the string itself, or the decimal rendering of an integer. -/
def pyStrOf : Option JVal → String
  | none => "None"
  | some (.str s) => s
  | some (.num n) => toString n

/-- Model of Python dict item assignment `d[k] = v`: replace the value of an
existing key in place, otherwise append the new key at the end (dicts preserve
insertion order). -/
def setKey : List (String × JVal) → String → JVal → List (String × JVal)
  | [], k, v => [(k, v)]
  | (k0, v0) :: rest, k, v =>
    if k0 = k then (k0, v) :: rest else (k0, v0) :: setKey rest k v

/-- A Python numeric value with its runtime type: a `decimal.Decimal` (the
type of `Order.price` loaded through Django's `DecimalField`), a `float`, or
an `int`. Values are carried as exact rationals; only the type tags matter
for the operator dispatch below. -/
inductive PyNum where
  | dec (q : Rat)
  | flt (q : Rat)
  | int (n : Int)
  deriving DecidableEq, Repr

/-- Python binary `*` on numbers: `Decimal` combines with `Decimal` or `int`,
but `Decimal * float` is unsupported in both operand orders and raises
`TypeError`; `float` and `int` combine freely (an `int` is promoted). -/
def pyMul : PyNum → PyNum → Except String PyNum
  | .dec a, .dec b => .ok (.dec (a * b))
  | .dec a, .int n => .ok (.dec (a * n))
  | .int n, .dec a => .ok (.dec (n * a))
  | .dec _, .flt _ => .error "TypeError: unsupported operand type(s) for *: Decimal and float"
  | .flt _, .dec _ => .error "TypeError: unsupported operand type(s) for *: float and Decimal"
  | .flt a, .flt b => .ok (.flt (a * b))
  | .flt a, .int n => .ok (.flt (a * n))
  | .int n, .flt a => .ok (.flt (n * a))
  | .int a, .int b => .ok (.int (a * b))

/-- Python binary `-` on the cases reached by `1 - discount / 100`: an `int`
minus a `float` is a `float`; two ints give an `int`. -/
def pySub : PyNum → PyNum → Except String PyNum
  | .int a, .flt b => .ok (.flt (a - b))
  | .flt a, .int b => .ok (.flt (a - b))
  | .flt a, .flt b => .ok (.flt (a - b))
  | .int a, .int b => .ok (.int (a - b))
  | .dec a, .dec b => .ok (.dec (a - b))
  | .dec a, .int b => .ok (.dec (a - b))
  | .int a, .dec b => .ok (.dec (a - b))
  | .dec _, .flt _ => .error "TypeError: unsupported operand type(s) for -: Decimal and float"
  | .flt _, .dec _ => .error "TypeError: unsupported operand type(s) for -: float and Decimal"

/-- Python true division `/` between two ints: always a `float` (the rounding
of the quotient to binary floating point is irrelevant for the type-level
fact proved here and is omitted). -/
def pyDivIntInt (a b : Int) : PyNum := .flt ((a : Rat) / (b : Rat))

/-- The price update of `apply_discount`, line 22 of hooks.py, with Python
numeric types tracked: `order.price * (1 - discount / 100)` where `discount`
is an `int` parsed from JSON and `order.price` has the given runtime type. -/
def applyDiscountPrice (price : PyNum) (discount : Int) : Except String PyNum := do
  let q := pyDivIntInt discount 100
  let f ← pySub (.int 1) q
  pyMul price f

/-- The `Order` entity (models.py lines 18-22): the fields touched by the
transition engine and hooks. `state_changed` is the `MonitorField` watching
`state`; `price` is a `PyNum` — the entity loaded through Django's
`DecimalField` carries a `decimal.Decimal`. -/
structure Order where
  item : String
  state : State
  state_changed : Nat
  price : PyNum
  metadata : List (String × JVal)
  deriving DecidableEq

/-- An `OrderLog` row (models.py lines 58-63) as created by
`self.logs.create(old_state=..., new_state=..., extra=kwargs)`; `timestamp`
is the `AutoCreatedField`. -/
structure OrderLog where
  timestamp : Nat
  old_state : State
  new_state : State
  extra : Params
  deriving DecidableEq

/-- A hook callback as registered by `HooksMixin.register_hook`: a named
function taking the order and the transition kwargs, which either returns the
(possibly mutated) order or raises, modelled as `Except`. -/
structure Hook where
  hookName : String
  run : Order → Params → Except String Order

/-- A hook registry: for each state, the ordered list of callbacks stored
under a phase name in that member's `_hooks` dict (`HooksMixin`); a pair with
no registration maps to the empty list. -/
def Registry := State → String → List Hook

/-- The outcome of running a list of hooks (`HooksMixin.execute_hooks` loop):
the order after the mutations of the successful hooks, the names of the hooks
that were invoked, and the error of the first failing hook, if any (a raise
stops the loop and propagates). -/
structure HooksResult where
  order : Order
  ran : List String
  err : Option String

/-- Model of `HooksMixin.execute_hooks`: invoke the callbacks in registration
order, threading the mutated order; stop at the first raise. An unregistered
name yields the empty list, so the loop body never runs. -/
def execute_hooks : List Hook → Order → Params → HooksResult
  | [], o, _ => ⟨o, [], none⟩
  | h :: rest, o, p =>
    match h.run o p with
    | .error e => ⟨o, [h.hookName], some e⟩
    | .ok o1 =>
      let r := execute_hooks rest o1 p
      ⟨r.order, h.hookName :: r.ran, r.err⟩

/-- The `Order._state_map` dict literal (models.py lines 32-37), as an
association list in source order. -/
def _state_map : List (State × List State) :=
  [(.PENDING_PAYMENT, [.PROCESSING, .CANCELLED]),
   (.PROCESSING, [.OUT_FOR_DELIVERY, .REFUNDED]),
   (.OUT_FOR_DELIVERY, [.DELIVERED, .REFUNDED]),
   (.DELIVERED, [.REFUNDED])]

/-- Model of `Order.get_possible_next_states`:
`self._state_map.get(self.state, ())`. -/
def get_possible_next_states (o : Order) : List State :=
  (List.lookup o.state _state_map).getD []

/-- The error raised by `transition_state`: the `ValueError` of an illegal
transition (whose f-string carries the old and the target state), or a
propagated hook exception. -/
inductive Err where
  | illegalTransition (old target : State)
  | hookError (msg : String)
  deriving DecidableEq, Repr

/-- Observable step events of one `transition_state` call, used to state
ordering properties: a hook invocation (tagged with its phase name), the
`self.save()` persist, and the `self.logs.create(...)` append. -/
inductive Event where
  | hookRun (phase : String) (hook : String)
  | saved
  | logAppended
  deriving DecidableEq, Repr

/-- The world a transition acts on: the in-memory entity, its persisted
(database) copy, and the persisted log rows of the order. -/
structure MachineState where
  mem : Order
  db : Order
  log : List OrderLog
  deriving DecidableEq

/-- Everything observable about one `transition_state` call: the returned or
raised result, the in-memory entity afterwards, the persisted entity and log
afterwards, and the trace of events that occurred. -/
structure TransOutcome where
  result : Except Err Unit
  mem : Order
  db : Order
  log : List OrderLog
  events : List Event

/-- Model of `Order.transition_state` (models.py lines 42-55).
Steps in source order: capture `old_state`; reject targets outside
`get_possible_next_states` with a `ValueError` before anything runs; run the
target state's before-hooks (a raise propagates, leaving the database and the
log untouched but keeping in-memory mutations of earlier hooks); set `state`
and `self.save()` — the save persists the entity, with the `MonitorField`
stamping `state_changed := now` when the saved `state` differs from the
loaded (database) value; append one log row with the captured `old_state`,
the target and `kwargs`; run the after-hooks on the committed entity (their
mutations are not saved; a raise propagates after the commit). -/
def transition_state (reg : Registry) (now : Nat) (st : MachineState)
    (new_state : State) (kwargs : Params) : TransOutcome :=
  let old_state := st.mem.state
  if new_state ∈ get_possible_next_states st.mem then
    let hb := execute_hooks (reg new_state "before") st.mem kwargs
    let evB := hb.ran.map (Event.hookRun "before")
    match hb.err with
    | some e => ⟨.error (.hookError e), hb.order, st.db, st.log, evB⟩
    | none =>
      let o2 : Order := { hb.order with state := new_state }
      let o3 : Order :=
        if o2.state ≠ st.db.state then { o2 with state_changed := now } else o2
      let log2 := st.log ++ [⟨now, old_state, new_state, kwargs⟩]
      let ha := execute_hooks (reg new_state "after") o3 kwargs
      let evA := ha.ran.map (Event.hookRun "after")
      ⟨match ha.err with
        | some e => .error (.hookError e)
        | none => .ok (),
       ha.order, o3, log2, evB ++ [.saved, .logAppended] ++ evA⟩
  else
    ⟨.error (.illegalTransition old_state new_state), st.mem, st.db, st.log, []⟩

/-- Hook `validate_payment_method` (hooks.py lines 7-11), registered under
`(PROCESSING, before)`: reject a payment method outside `("cash", "card")`
with `ValueError(f"Invalid payment method: {payment_method}")` — a missing
keyword argument defaults to `None` — otherwise store it in
`order.metadata["payment_method"]`. -/
def validate_payment_method : Hook where
  hookName := "validate_payment_method"
  run o p :=
    let pm := List.lookup "payment_method" p
    match pm with
    | some (.str s) =>
      if s = "cash" ∨ s = "card" then
        .ok { o with metadata := setKey o.metadata "payment_method" (.str s) }
      else
        .error ("Invalid payment method: " ++ s)
    | _ => .error ("Invalid payment method: " ++ pyStrOf pm)

/-- Hook `apply_discount` (hooks.py lines 14-23), registered under
`(PROCESSING, before)`: no-op when `discount` is absent; raise
`ValueError(f"Invalid discount percentage: {discount}")` outside `0..100`;
otherwise set `price := price * (1 - discount / 100)` — evaluated with Python
numeric-type dispatch by `applyDiscountPrice`, so the multiplication itself
may raise a `TypeError` — and record the discount in metadata. A non-numeric
discount makes the Python comparison `0 <= discount` raise a `TypeError`,
modelled as an error. -/
def apply_discount : Hook where
  hookName := "apply_discount"
  run o p :=
    match List.lookup "discount" p with
    | none => .ok o
    | some (.num d) =>
      if 0 ≤ d ∧ d ≤ 100 then
        match applyDiscountPrice o.price d with
        | .error e => .error e
        | .ok p2 =>
          .ok { o with price := p2,
                       metadata := setKey o.metadata "discount" (.num d) }
      else
        .error ("Invalid discount percentage: " ++ toString d)
    | some (.str _) => .error "TypeError: ordered comparison of int and str"

/-- Hook `notify_payment_success` (hooks.py lines 26-29), registered under
`(PROCESSING, after)`: prints two lines (a pure side effect, dropped here) and
mutates nothing. Its `payment_method` parameter has no default, so invoking it
without that keyword argument raises a `TypeError`. -/
def notify_payment_success : Hook where
  hookName := "notify_payment_success"
  run o p :=
    match List.lookup "payment_method" p with
    | some _ => .ok o
    | none => .error "TypeError: missing required argument payment_method"

/-- Hook `validate_delivery_date` (hooks.py lines 32-41), registered under
`(OUT_FOR_DELIVERY, before)`: raise `ValueError("Delivery date is required")`
when `delivery_date` is absent, otherwise store it in metadata. The ISO-format
parse and the comparison against the wall clock (`datetime.now()`) are real
time and are not modelled; no claim exercises them. -/
def validate_delivery_date : Hook where
  hookName := "validate_delivery_date"
  run o p :=
    match List.lookup "delivery_date" p with
    | none => .error "Delivery date is required"
    | some v => .ok { o with metadata := setKey o.metadata "delivery_date" v }

/-- Hook `notify_out_for_delivery` (hooks.py lines 44-49), registered under
`(OUT_FOR_DELIVERY, after)`: prints only; its `delivery_date` parameter has no
default, so a missing keyword argument raises a `TypeError`. -/
def notify_out_for_delivery : Hook where
  hookName := "notify_out_for_delivery"
  run o p :=
    match List.lookup "delivery_date" p with
    | some _ => .ok o
    | none => .error "TypeError: missing required argument delivery_date"

/-- Hook `notify_delivery_success` (hooks.py lines 52-54), registered under
`(DELIVERED, after)`: prints only, mutates nothing, never raises. -/
def notify_delivery_success : Hook where
  hookName := "notify_delivery_success"
  run o _ := .ok o

/-- Hook `send_questionnaire` (hooks.py lines 57-82), registered under both
`(CANCELLED, after)` and `(REFUNDED, after)` by stacked decorators: prints
only, mutates nothing, never raises. -/
def send_questionnaire : Hook where
  hookName := "send_questionnaire"
  run o _ := .ok o

/-- The hook registry built by importing hooks.py at app startup: the decorator
calls append each function to the `_hooks` list of its state member under the
given phase name, in source order; every other `(state, phase)` pair has no
registration. -/
def order_hooks : Registry := fun s phase =>
  match s, phase with
  | .PROCESSING, "before" => [validate_payment_method, apply_discount]
  | .PROCESSING, "after" => [notify_payment_success]
  | .OUT_FOR_DELIVERY, "before" => [validate_delivery_date]
  | .OUT_FOR_DELIVERY, "after" => [notify_out_for_delivery]
  | .DELIVERED, "after" => [notify_delivery_success]
  | .CANCELLED, "after" => [send_questionnaire]
  | .REFUNDED, "after" => [send_questionnaire]
  | _, _ => []

lemma execute_hooks_all_ok (hooks : List Hook) (p : Params)
    (h : ∀ k ∈ hooks, ∀ o, ∃ o2, k.run o p = .ok o2) :
    ∀ o : Order, (execute_hooks hooks o p).err = none ∧
      (execute_hooks hooks o p).ran = hooks.map Hook.hookName := by
  induction hooks with
  | nil => exact fun o => ⟨rfl, rfl⟩
  | cons k rest ih =>
    intro o
    obtain ⟨o2, ho2⟩ := h k (List.mem_cons_self _ _) o
    have hrest : ∀ k2 ∈ rest, ∀ o3, ∃ o4, k2.run o3 p = .ok o4 :=
      fun k2 hk2 o3 => h k2 (List.mem_cons_of_mem _ hk2) o3
    obtain ⟨he, hr⟩ := ih hrest o2
    simp [execute_hooks, ho2, he, hr]

/-- C1: a transition to a target outside `get_possible_next_states` of the
current state fails with the illegal-transition error carrying the old and the
target state, and leaves the in-memory entity (state and `state_changed`
included), the persisted entity, and the log unchanged, with no hook of either
phase invoked. -/
theorem C1_illegal_transition_rejected (reg : Registry) (now : Nat)
    (st : MachineState) (ns : State) (kwargs : Params)
    (h : ns ∉ get_possible_next_states st.mem) :
    (transition_state reg now st ns kwargs).result =
      .error (.illegalTransition st.mem.state ns) ∧
    (transition_state reg now st ns kwargs).mem = st.mem ∧
    (transition_state reg now st ns kwargs).db = st.db ∧
    (transition_state reg now st ns kwargs).log = st.log ∧
    (transition_state reg now st ns kwargs).events = [] := by
  simp [transition_state, h]

def orderW1 : Order :=
  { item := "w1", state := .PROCESSING, state_changed := 0,
    price := .dec 100, metadata := [] }

def msW1 : MachineState := { mem := orderW1, db := orderW1, log := [] }

theorem C1_illegal_transition_rejected_witness :
    (State.DELIVERED ∉ get_possible_next_states msW1.mem) ∧
    (transition_state order_hooks 5 msW1 .DELIVERED []).result =
      .error (.illegalTransition .PROCESSING .DELIVERED) ∧
    (transition_state order_hooks 5 msW1 .DELIVERED []).events = [] := by
  have h := C1_illegal_transition_rejected order_hooks 5 msW1 .DELIVERED []
    (by decide)
  exact ⟨by decide, h.1, h.2.2.2.2⟩

/-- C2: an accepted transition (legal target, no before-hook failure) appends
exactly one log record, whose `old_state` is the entity state captured at
entry (hence before the commit), whose `new_state` is the target, and whose
`extra` is the transition's keyword arguments. -/
theorem C2_accepted_transition_single_record (reg : Registry) (now : Nat)
    (st : MachineState) (ns : State) (kwargs : Params)
    (h1 : ns ∈ get_possible_next_states st.mem)
    (h2 : (execute_hooks (reg ns "before") st.mem kwargs).err = none) :
    (transition_state reg now st ns kwargs).log =
      st.log ++ [{ timestamp := now, old_state := st.mem.state,
                   new_state := ns, extra := kwargs }] := by
  simp [transition_state, h1, h2]

def orderW2 : Order :=
  { item := "w2", state := .PENDING_PAYMENT, state_changed := 0,
    price := .dec 100, metadata := [] }

def msW2 : MachineState := { mem := orderW2, db := orderW2, log := [] }

theorem C2_accepted_transition_single_record_witness :
    (State.CANCELLED ∈ get_possible_next_states msW2.mem) ∧
    ((execute_hooks (order_hooks .CANCELLED "before") msW2.mem []).err = none) ∧
    (transition_state order_hooks 4 msW2 .CANCELLED []).log =
      msW2.log ++ [{ timestamp := 4, old_state := .PENDING_PAYMENT,
                     new_state := .CANCELLED, extra := [] }] :=
  ⟨by decide, rfl,
    C2_accepted_transition_single_record order_hooks 4 msW2 .CANCELLED []
      (by decide) rfl⟩

/-- C4: when a before-hook of a transition attempt raises, the raised error
propagates as the call's result, the persisted entity (state and
`state_changed` included) and the log are unchanged, and the event trace holds
only before-phase hook invocations — nothing was saved, no record appended,
no after-hook ran. -/
theorem C4_before_hook_failure_aborts (reg : Registry) (now : Nat)
    (st : MachineState) (ns : State) (kwargs : Params) (e : String)
    (h1 : ns ∈ get_possible_next_states st.mem)
    (h2 : (execute_hooks (reg ns "before") st.mem kwargs).err = some e) :
    (transition_state reg now st ns kwargs).result = .error (.hookError e) ∧
    (transition_state reg now st ns kwargs).db = st.db ∧
    (transition_state reg now st ns kwargs).log = st.log ∧
    (transition_state reg now st ns kwargs).events =
      (execute_hooks (reg ns "before") st.mem kwargs).ran.map
        (Event.hookRun "before") := by
  simp [transition_state, h1, h2]

def orderW4 : Order :=
  { item := "w4", state := .PENDING_PAYMENT, state_changed := 0,
    price := .dec 100, metadata := [] }

def msW4 : MachineState := { mem := orderW4, db := orderW4, log := [] }

theorem C4_before_hook_failure_aborts_witness :
    (State.PROCESSING ∈ get_possible_next_states msW4.mem) ∧
    ((execute_hooks (order_hooks .PROCESSING "before") msW4.mem []).err =
      some "Invalid payment method: None") ∧
    (transition_state order_hooks 5 msW4 .PROCESSING []).result =
      .error (.hookError "Invalid payment method: None") ∧
    (transition_state order_hooks 5 msW4 .PROCESSING []).db = msW4.db ∧
    (transition_state order_hooks 5 msW4 .PROCESSING []).log = msW4.log := by
  have h := C4_before_hook_failure_aborts order_hooks 5 msW4 .PROCESSING []
    "Invalid payment method: None" (by decide) rfl
  exact ⟨by decide, rfl, h.1, h.2.1, h.2.2.1⟩

/-- C3: in a legal transition whose hooks all succeed, the observable steps
are exactly: every before-hook of the target, in registration order; then the
entity save; then the log append; then every after-hook of the target, in
registration order. -/
theorem C3_hook_phase_ordering (reg : Registry) (now : Nat)
    (st : MachineState) (ns : State) (kwargs : Params)
    (h1 : ns ∈ get_possible_next_states st.mem)
    (h2 : ∀ k ∈ reg ns "before", ∀ o, ∃ o2, k.run o kwargs = .ok o2)
    (h3 : ∀ k ∈ reg ns "after", ∀ o, ∃ o2, k.run o kwargs = .ok o2) :
    (transition_state reg now st ns kwargs).events =
      ((reg ns "before").map Hook.hookName).map (Event.hookRun "before")
      ++ [Event.saved, Event.logAppended]
      ++ ((reg ns "after").map Hook.hookName).map (Event.hookRun "after") := by
  have hb := execute_hooks_all_ok (reg ns "before") kwargs h2
  have ha := execute_hooks_all_ok (reg ns "after") kwargs h3
  have hbe : ∀ o, (execute_hooks (reg ns "before") o kwargs).err = none :=
    fun o => (hb o).1
  have hbr : ∀ o, (execute_hooks (reg ns "before") o kwargs).ran =
      (reg ns "before").map Hook.hookName := fun o => (hb o).2
  have har : ∀ o, (execute_hooks (reg ns "after") o kwargs).ran =
      (reg ns "after").map Hook.hookName := fun o => (ha o).2
  simp [transition_state, h1, hbe, hbr, har]

def orderW3 : Order :=
  { item := "w3", state := .PENDING_PAYMENT, state_changed := 0,
    price := .dec 100, metadata := [] }

def msW3 : MachineState := { mem := orderW3, db := orderW3, log := [] }

theorem C3_hook_phase_ordering_witness :
    (State.CANCELLED ∈ get_possible_next_states msW3.mem) ∧
    (transition_state order_hooks 3 msW3 .CANCELLED []).events =
      ((order_hooks .CANCELLED "before").map Hook.hookName).map
        (Event.hookRun "before")
      ++ [Event.saved, Event.logAppended]
      ++ ((order_hooks .CANCELLED "after").map Hook.hookName).map
        (Event.hookRun "after") := by
  refine ⟨by decide, ?_⟩
  apply C3_hook_phase_ordering order_hooks 3 msW3 .CANCELLED [] (by decide)
  · intro k hk o
    simp [order_hooks] at hk
  · intro k hk o
    simp [order_hooks] at hk
    subst hk
    exact ⟨o, rfl⟩

def orderW5 : Order :=
  { item := "w5", state := .PENDING_PAYMENT, state_changed := 0,
    price := .dec 100, metadata := [] }

def msW5 : MachineState := { mem := orderW5, db := orderW5, log := [] }

def kwargsW5 : Params :=
  [("payment_method", .str "cash"), ("discount", .num 150)]

/-- C5: in the attempt `PENDING_PAYMENT → PROCESSING` with a valid payment
method and the invalid discount 150, `validate_payment_method` first writes
`payment_method` into the in-memory metadata, then `apply_discount` raises —
and that earlier mutation is not rolled back: the failed call leaves the
in-memory entity with the payment method recorded while the persisted entity
and the log are untouched. -/
theorem C5_partial_mutation_not_rolled_back :
    (transition_state order_hooks 5 msW5 .PROCESSING kwargsW5).result =
      .error (.hookError "Invalid discount percentage: 150") ∧
    (transition_state order_hooks 5 msW5 .PROCESSING kwargsW5).mem.metadata =
      [("payment_method", JVal.str "cash")] ∧
    (transition_state order_hooks 5 msW5 .PROCESSING kwargsW5).events =
      [Event.hookRun "before" "validate_payment_method",
       Event.hookRun "before" "apply_discount"] ∧
    (transition_state order_hooks 5 msW5 .PROCESSING kwargsW5).db = msW5.db ∧
    (transition_state order_hooks 5 msW5 .PROCESSING kwargsW5).log = msW5.log :=
  ⟨rfl, rfl, rfl, rfl, rfl⟩

/-- C6: `get_possible_next_states` returns exactly the `_state_map` entry of
the entity's current state, and the empty collection for states without an
entry — in particular `CANCELLED` and `REFUNDED`, which are absent from the
table, admit no outgoing transition. -/
theorem C6_next_states_match_adjacency :
    (∀ o : Order,
      get_possible_next_states o = (List.lookup o.state _state_map).getD []) ∧
    (∀ s : State, s = .CANCELLED ∨ s = .REFUNDED → List.lookup s _state_map = none) ∧
    (∀ o : Order, o.state = .CANCELLED ∨ o.state = .REFUNDED →
      get_possible_next_states o = []) := by
  refine ⟨fun o => rfl, by decide, fun o h => ?_⟩
  unfold get_possible_next_states
  rcases h with h | h <;> rw [h] <;> rfl

def orderW6 : Order :=
  { item := "w6", state := .CANCELLED, state_changed := 0,
    price := .int 1, metadata := [] }

theorem C6_next_states_match_adjacency_witness :
    (orderW6.state = .CANCELLED ∨ orderW6.state = .REFUNDED) ∧
    get_possible_next_states orderW6 = [] :=
  ⟨Or.inl rfl, C6_next_states_match_adjacency.2.2 orderW6 (Or.inl rfl)⟩

/-- C7: constructing a `State` from any member's machine value round-trips to
that member; `is_valid` accepts every member instance and every member's raw
value; and `is_valid` rejects any string that is no member's value. -/
theorem C7_roundtrip_and_validity :
    (∀ s : State, State.ofValue? s.value = some s) ∧
    (∀ s : State, is_valid (.member s) = true) ∧
    (∀ s : State, is_valid (.rawStr s.value) = true) ∧
    (∀ v : String, (∀ s : State, s.value ≠ v) → is_valid (.rawStr v) = false) := by
  refine ⟨by decide, fun s => rfl, by decide, fun v h => ?_⟩
  show allStates.any (fun s => s.value == v) = false
  rw [List.any_eq_false]
  intro s _
  simpa using h s

theorem C7_roundtrip_and_validity_witness :
    (∀ s : State, s.value ≠ "bogus") ∧
    is_valid (.rawStr "bogus") = false :=
  ⟨by decide, C7_roundtrip_and_validity.2.2.2 "bogus" (by decide)⟩

/-- C8: the label of a member declared as a 2-tuple is the supplied second
element; the label of a member declared from a bare value is derived from the
member name by replacing underscores with spaces and title-casing; and
`choices()` is the sequence of `(value, label)` pairs in declaration order —
concretely the six pairs below, with `DELIVERED` labelled
"Package Delivered" and every other label auto-derived. -/
theorem C8_labels_and_choices :
    (∀ (s : State) (v l : String), rawOf s = .pair v l → State.desc s = l) ∧
    (∀ (s : State) (v : String), rawOf s = .bare v →
      State.desc s = pyTitle (pyUnderscoreToSpace (pyName s))) ∧
    choices = [("pending_payment", "Pending Payment"),
               ("processing", "Processing"),
               ("out_for_delivery", "Out For Delivery"),
               ("delivered", "Package Delivered"),
               ("cancelled", "Cancelled"),
               ("refunded", "Refunded")] := by
  refine ⟨?_, ?_, by decide⟩
  · intro s v l h
    simp [State.desc, h]
  · intro s v h
    simp [State.desc, h]

theorem C8_labels_and_choices_witness :
    (rawOf .DELIVERED = .pair "delivered" "Package Delivered") ∧
    State.desc .DELIVERED = "Package Delivered" ∧
    (rawOf .OUT_FOR_DELIVERY = .bare "out_for_delivery") ∧
    State.desc .OUT_FOR_DELIVERY =
      pyTitle (pyUnderscoreToSpace (pyName .OUT_FOR_DELIVERY)) :=
  ⟨rfl, C8_labels_and_choices.1 .DELIVERED "delivered" "Package Delivered" rfl,
   rfl, C8_labels_and_choices.2.1 .OUT_FOR_DELIVERY "out_for_delivery" rfl⟩

def orderW9 : Order :=
  { item := "w9", state := .PENDING_PAYMENT, state_changed := 0,
    price := .dec 100, metadata := [] }

def msW9 : MachineState := { mem := orderW9, db := orderW9, log := [] }

def orderW9int : Order := { orderW9 with price := .int 100 }

def msW9int : MachineState := { mem := orderW9int, db := orderW9int, log := [] }

def kwargsW9 : Params :=
  [("payment_method", .str "cash"), ("discount", .num 10)]

/-- C9: evidence that the documented scenario fails on the code. For an
entity whose `price` is the `decimal.Decimal` that Django's `DecimalField`
yields, the attempt `PENDING_PAYMENT → PROCESSING` with
`payment_method="cash", discount=10` does not succeed: `apply_discount`
evaluates `order.price * (1 - discount / 100)`, whose right operand is a
Python `float`, and `Decimal * float` raises `TypeError` — so the transition
aborts with no state change and no log row. Were `price` a plain number (the
spec's evident intent), the same call would succeed with the price reduced
10% and one log row appended, as the last conjuncts show. -/
theorem C9_discount_decimal_times_float_type_error :
    (transition_state order_hooks 7 msW9 .PROCESSING kwargsW9).result =
      .error (.hookError
        "TypeError: unsupported operand type(s) for *: Decimal and float") ∧
    (transition_state order_hooks 7 msW9 .PROCESSING kwargsW9).db = msW9.db ∧
    (transition_state order_hooks 7 msW9 .PROCESSING kwargsW9).log = [] ∧
    applyDiscountPrice (.dec 100) 10 =
      .error "TypeError: unsupported operand type(s) for *: Decimal and float" ∧
    (transition_state order_hooks 7 msW9int .PROCESSING kwargsW9).result =
      .ok () ∧
    (transition_state order_hooks 7 msW9int .PROCESSING kwargsW9).db.state =
      .PROCESSING ∧
    (transition_state order_hooks 7 msW9int .PROCESSING kwargsW9).db.price =
      .flt 90 ∧
    (transition_state order_hooks 7 msW9int .PROCESSING kwargsW9).db.metadata =
      [("payment_method", JVal.str "cash"), ("discount", JVal.num 10)] ∧
    (transition_state order_hooks 7 msW9int .PROCESSING kwargsW9).log =
      [{ timestamp := 7, old_state := .PENDING_PAYMENT,
         new_state := .PROCESSING, extra := kwargsW9 }] := by
  refine ⟨rfl, rfl, rfl, rfl, rfl, rfl, ?_, rfl, rfl⟩
  show PyNum.flt (((100 : Int) : Rat) *
    (((1 : Int) : Rat) - ((10 : Int) : Rat) / ((100 : Int) : Rat))) =
    PyNum.flt 90
  norm_num

/-- C10: with no hook registered under the target's before phase, the hook
stage is a no-op — `execute_hooks` returns the entity untouched having
invoked nothing and raised nothing — so a legal transition into such a state
always commits: the persisted state becomes the target and one log row is
appended. -/
theorem C10_no_before_hooks_cannot_veto (reg : Registry) (now : Nat)
    (st : MachineState) (ns : State) (kwargs : Params)
    (h1 : reg ns "before" = [])
    (h2 : ns ∈ get_possible_next_states st.mem) :
    execute_hooks (reg ns "before") st.mem kwargs =
      { order := st.mem, ran := [], err := none } ∧
    (transition_state reg now st ns kwargs).db.state = ns ∧
    (transition_state reg now st ns kwargs).log =
      st.log ++ [{ timestamp := now, old_state := st.mem.state,
                   new_state := ns, extra := kwargs }] := by
  refine ⟨by rw [h1]; rfl, ?_, ?_⟩
  · simp only [transition_state, h1, h2, execute_hooks, if_true]
    split <;> rfl
  · simp [transition_state, h1, h2, execute_hooks]

def orderW10 : Order :=
  { item := "w10", state := .PENDING_PAYMENT, state_changed := 0,
    price := .dec 100, metadata := [] }

def msW10 : MachineState := { mem := orderW10, db := orderW10, log := [] }

theorem C10_no_before_hooks_cannot_veto_witness :
    (order_hooks .CANCELLED "before" = []) ∧
    (State.CANCELLED ∈ get_possible_next_states msW10.mem) ∧
    (transition_state order_hooks 3 msW10 .CANCELLED []).db.state =
      .CANCELLED ∧
    (transition_state order_hooks 3 msW10 .CANCELLED []).log =
      msW10.log ++ [{ timestamp := 3, old_state := .PENDING_PAYMENT,
                      new_state := .CANCELLED, extra := [] }] := by
  have h := C10_no_before_hooks_cannot_veto order_hooks 3 msW10 .CANCELLED []
    rfl (by decide)
  exact ⟨rfl, by decide, h.2.1, h.2.2⟩
